import Mathlib

/-
Shallow embedding of the duplex audio relay and batch document extractor
(src/websocket_handlers.py, src/gemini_manager.py, src/extractor.py).
Pure data flow is modelled as Lean functions over explicit event lists;
exception outcomes of external calls (transport sends, remote-session
operations) are passed in as Boolean parameters and the control flow of
each try/except block is translated faithfully.
-/

namespace PyService

/-! ### Connection Registry

WebSocketHandler.active_connections is a Python dict mapping the client id
string (host:port) to the websocket object. We model the dict as a partial
map from String and the websocket object by an opaque Nat handle. -/

/-- The process-wide registry: connection id to websocket handle. -/
def Registry : Type := String → Option Nat

/-- Registry with no entries. -/
def emptyRegistry : Registry := fun _ => none

/-- websocket_handlers.py:29, self.active_connections[client_id] = websocket.
A plain dict assignment: inserts, silently replacing any existing entry. -/
def register (id : String) (ws : Nat) (reg : Registry) : Registry :=
  fun k => if k = id then some ws else reg k

/-- websocket_handlers.py:69-70, if client_id in self.active_connections:
del self.active_connections[client_id]. As a map this removes the key;
the membership guard only avoids KeyError, so on an absent key the map is
unchanged. -/
def unregister (id : String) (reg : Registry) : Registry :=
  fun k => if k = id then none else reg k

/-- Dict lookup. -/
def lookup (id : String) (reg : Registry) : Option Nat := reg id

/-- Failure kind named by the specification for duplicate registration. -/
inductive RegErr : Type
  | duplicateConnection
deriving DecidableEq

/-- The register contract as the specification words it (section 4.1):
fail with DuplicateConnection when the id is already present, leaving the
registry unchanged. Stated only for comparison with the register of the
code, which never fails. -/
def registerSpecified (id : String) (ws : Nat) (reg : Registry) :
    Except RegErr Registry :=
  match reg id with
  | some _ => Except.error RegErr.duplicateConnection
  | none => Except.ok (register id ws reg)

/-! ### Message model

Envelopes sent to the client (the dicts passed to _send_json), binary
frames, frames received from the client, and the events yielded by
GeminiAudioManager.receive_responses. Timestamps are wall-clock strings
and are omitted. Binary payloads are byte lists (List Nat). -/

/-- Structured JSON envelopes the relay sends to the client. -/
inductive Envelope : Type
  | connectionEstablished
  | audioMetadata (bytes : Nat) (interrupted turnComplete : Bool)
  | textResponse (txt : String) (interrupted turnComplete : Bool)
  | errorMsg (msg : String)
  | pong
deriving DecidableEq

/-- One item of the client-bound output stream of the remote-to-client
loop: a raw binary frame (websocket.send_bytes) or a structured envelope
(self._send_json). -/
inductive ClientOut : Type
  | binaryFrame (data : List Nat)
  | control (e : Envelope)
deriving DecidableEq

/-- Events yielded by GeminiAudioManager.receive_responses
(gemini_manager.py:112-126): audio payloads and text payloads, each with
the interrupted and turn_complete flags read off the server content. -/
inductive GeminiEvent : Type
  | audio (data : List Nat) (interrupted turnComplete : Bool)
  | text (txt : String) (interrupted turnComplete : Bool)
deriving DecidableEq

/-- What json.loads followed by dict access distinguishes about a text
frame payload (websocket_handlers.py:94-98 and 140-146): not valid JSON
(json.loads raises JSONDecodeError), valid JSON but not a JSON object
(json_data.get then raises AttributeError), or a JSON object whose type
field is the given string, if any string is present. -/
inductive TextPayload : Type
  | notJson
  | jsonNonObject
  | jsonObject (typ : Option String)
deriving DecidableEq

/-- A frame received from the client by websocket.receive: binary audio
bytes or a text frame. -/
inductive ClientFrame : Type
  | binary (data : List Nat)
  | text (payload : TextPayload)
deriving DecidableEq

/-- Observable actions of the client-to-remote loop: forwarding audio to
the remote session (session_manager.send_audio) or sending an envelope
back to the client (self._send_json). -/
inductive ClientLoopAction : Type
  | sendToGemini (data : List Nat)
  | sendToClient (e : Envelope)
deriving DecidableEq

/-- websocket_handlers.py:140-146, _handle_control_message: a control
object of type ping is answered in-line with a pong envelope; any other
type is a no-op. The function receives only the websocket and the parsed
object, never the remote session. -/
def handleControlMessage (typ : Option String) : List Envelope :=
  if typ = some "ping" then [Envelope.pong] else []

/-- websocket_handlers.py:73-103, _forward_client_to_gemini, as the list
of actions it performs on a finite inbound frame list (the list ending
models the client disconnecting). sendAudioOk says whether
session_manager.send_audio completes; when it raises (no active session,
or a send error) the exception is caught by the except at line 102 and
the loop ends. A text payload that is not valid JSON hits the
except json.JSONDecodeError: pass at line 97 and is skipped; a payload
that is valid JSON but not an object raises AttributeError inside
_handle_control_message, which is not JSONDecodeError, so it propagates
to the except at line 102 and the loop ends. -/
def forwardClientToGemini (sendAudioOk : Bool) :
    List ClientFrame → List ClientLoopAction
  | [] => []
  | ClientFrame.binary d :: rest =>
      if sendAudioOk then
        ClientLoopAction.sendToGemini d :: forwardClientToGemini sendAudioOk rest
      else []
  | ClientFrame.text TextPayload.notJson :: rest =>
      forwardClientToGemini sendAudioOk rest
  | ClientFrame.text TextPayload.jsonNonObject :: _ => []
  | ClientFrame.text (TextPayload.jsonObject typ) :: rest =>
      (handleControlMessage typ).map ClientLoopAction.sendToClient ++
        forwardClientToGemini sendAudioOk rest

/-- websocket_handlers.py:105-133, _forward_gemini_to_client, as the
client-bound output stream it produces from the events of
receive_responses when every transport send completes: an audio event
becomes a binary frame immediately followed by an audio_metadata envelope
whose bytes field is the payload length and whose flags are the event
flags; a text event becomes one text_response envelope. -/
def forwardGeminiToClient : List GeminiEvent → List ClientOut
  | [] => []
  | GeminiEvent.audio d i t :: rest =>
      ClientOut.binaryFrame d ::
        ClientOut.control (Envelope.audioMetadata d.length i t) ::
          forwardGeminiToClient rest
  | GeminiEvent.text s i t :: rest =>
      ClientOut.control (Envelope.textResponse s i t) ::
        forwardGeminiToClient rest

/-! ### Transport-aware remote-to-client loop

For claims about transport send failures the outcome of each underlying
websocket send is a parameter: the k-th send_bytes and the k-th raw
send_json either complete or raise. -/

/-- Failure of an underlying websocket send operation. -/
inductive TransportError : Type
  | sendFailed
deriving DecidableEq

/-- The raw websocket.send_json call: completes when the transport is
healthy, raises otherwise. -/
def rawSendJson (ok : Bool) : Except TransportError Unit :=
  if ok then Except.ok () else Except.error TransportError.sendFailed

/-- websocket_handlers.py:148-153, _send_json: the raw send is wrapped in
try/except Exception; a failure is logged and absorbed, so the helper
returns normally on both outcomes. All five structured envelope kinds
(connection_established, error, pong, text_response, audio_metadata) are
sent through this helper. -/
def sendJsonHelper (ok : Bool) : Except TransportError Unit :=
  match rawSendJson ok with
  | Except.ok _ => Except.ok ()
  | Except.error _ => Except.ok ()

/-- Per-connection transport send outcomes: bytesOk k is whether the k-th
websocket.send_bytes completes, jsonOk k whether the k-th raw
websocket.send_json delivers its frame. -/
structure Transport : Type where
  bytesOk : Nat → Bool
  jsonOk : Nat → Bool

/-- websocket_handlers.py:105-133 with transport outcomes made explicit.
Arguments bk and jk count the send_bytes and send_json calls already
made. Returns the frames actually delivered to the client and the number
of remote events fully processed. For an audio event, send_bytes is
awaited first: if it raises, the except at line 137 catches it and the
loop ends. Otherwise the audio_metadata envelope goes through
_send_json, whose result decides whether the loop body continues (it
always returns ok, but the translation keeps the branch the Python
exception flow would take if it raised). A text event only performs a
_send_json. A json frame is delivered exactly when its raw send
succeeded. -/
def geminiLoopRun (tr : Transport) : Nat → Nat → List GeminiEvent → List ClientOut × Nat
  | _, _, [] => ([], 0)
  | bk, jk, GeminiEvent.audio d i t :: rest =>
      if tr.bytesOk bk then
        match sendJsonHelper (tr.jsonOk jk) with
        | Except.ok _ =>
            let r := geminiLoopRun tr (bk + 1) (jk + 1) rest
            (ClientOut.binaryFrame d ::
              ((if tr.jsonOk jk then
                  [ClientOut.control (Envelope.audioMetadata d.length i t)]
                else []) ++ r.1),
             r.2 + 1)
        | Except.error _ => ([ClientOut.binaryFrame d], 0)
      else ([], 0)
  | bk, jk, GeminiEvent.text s i t :: rest =>
      match sendJsonHelper (tr.jsonOk jk) with
      | Except.ok _ =>
          let r := geminiLoopRun tr bk (jk + 1) rest
          ((if tr.jsonOk jk then
              [ClientOut.control (Envelope.textResponse s i t)]
            else []) ++ r.1,
           r.2 + 1)
      | Except.error _ => ([], 0)

/-! ### Remote session manager

gemini_manager.py. The session handle and connection flag are the state;
whether the external call session.__aexit__ raises is a parameter. -/

/-- Mutable fields of GeminiAudioManager relevant to the lifecycle. -/
structure MgrState : Type where
  sessionOpen : Bool
  isConnected : Bool
deriving DecidableEq

/-- gemini_manager.py:61-72, disconnect: inside try, if a session exists
its __aexit__ is awaited, then is_connected and session are cleared;
except Exception logs and falls through. Returns the new state and the
exception that escapes the call, which is always none: an __aexit__
failure is caught (skipping the field resets), and the no-session path
cannot raise. -/
def disconnect (st : MgrState) (aexitRaises : Bool) : MgrState × Option TransportError :=
  if st.sessionOpen then
    if aexitRaises then (st, none)
    else (MgrState.mk false false, none)
  else (MgrState.mk false false, none)

/-- gemini_manager.py:42-59, connect: on success the session is stored
and is_connected set; on failure the exception is re-raised and the
session stays unset. -/
def mgrAfterConnect (connectOk : Bool) : MgrState :=
  if connectOk then MgrState.mk true true else MgrState.mk false false

/-! ### Connection lifecycle

handle_connection (websocket_handlers.py:25-71) as the sequence of
observable lifecycle snapshots, following the specification state names:
CONNECTING until the remote connect resolves, ACTIVE while the gather of
the two loops runs, CLOSING inside the finally block, CLOSED once the
remote session is released and the registry entry removed. -/

/-- Lifecycle states of a connection. -/
inductive Phase : Type
  | connecting
  | active
  | closing
  | closed
deriving DecidableEq

/-- One observable snapshot of a connection: its phase, whether its id is
in the registry, and how many times disconnect has been invoked. -/
structure ConnSnapshot : Type where
  phase : Phase
  registered : Bool
  disconnectCalls : Nat
deriving DecidableEq

/-- websocket_handlers.py:25-71, handle_connection, as its snapshot
trace. After accept, the id is registered (line 29). If connect succeeds
the connection is ACTIVE while both loops run under gather; if connect
raises, the except at line 55 sends a best-effort error envelope. Either
way the finally block runs: disconnect is invoked exactly once, and only
if it returns without raising does control reach the registry deletion
at lines 69-70, after which the connection is CLOSED. -/
def handleConnectionTrace (connectOk aexitRaises : Bool) : List ConnSnapshot :=
  ConnSnapshot.mk Phase.connecting false 0 ::
    ConnSnapshot.mk Phase.connecting true 0 ::
      ((if connectOk then
          [ConnSnapshot.mk Phase.active true 0, ConnSnapshot.mk Phase.closing true 0]
        else
          [ConnSnapshot.mk Phase.closing true 0]) ++
        (match (disconnect (mgrAfterConnect connectOk) aexitRaises).2 with
         | some _ => [ConnSnapshot.mk Phase.closing true 1]
         | none =>
             [ConnSnapshot.mk Phase.closing true 1,
              ConnSnapshot.mk Phase.closed false 1]))

/-! ### Timing of teardown relative to the two loops

websocket_handlers.py:49-53 awaits asyncio.gather of the two forwarding
loops with return_exceptions set, so handle_connection resumes (and the
finally block can begin) only once both coroutines have completed; a
loop that raises has its exception returned as a value, and no
cancellation is ever issued to the sibling task. Durations d1 and d2 are
the instants at which the two loops terminate on their own. -/

/-- A loop of duration d is still running at instant t iff t < d. -/
def loopRunningAt (d t : Nat) : Prop := t < d

instance (d t : Nat) : Decidable (loopRunningAt d t) :=
  inferInstanceAs (Decidable (t < d))

/-- The gather call has resumed at instant t iff both loops are done. -/
def gatherBothDone (d1 d2 t : Nat) : Prop := d1 ≤ t ∧ d2 ≤ t

instance (d1 d2 t : Nat) : Decidable (gatherBothDone d1 d2 t) :=
  inferInstanceAs (Decidable (d1 ≤ t ∧ d2 ≤ t))

/-- Teardown (the finally block) begins when the gather of both loops
resumes: at the later of the two termination instants. -/
def teardownStartTime (d1 d2 : Nat) : Nat := max d1 d2

/-- Instants at which handle_connection cancels a forwarding task: the
source contains no task cancellation at all. -/
def cancellationsIssued (_d1 _d2 : Nat) : List Nat := []

/-! ### Batch document extraction

extractor.py:145-177, process_multiple_files. The per-file extraction
(extract_text_from_file) calls the external rendering engine, so it is a
parameter here: any function from files to a per-file result. The
aggregation only reads the error and format fields of each result. -/

/-- The fields of a per-file extraction result that the batch aggregation
reads: extractor.py:162 tests result error is None, extractor.py:168
reads result format, substituting unknown when falsy. -/
structure FileResult : Type where
  error : Option String
  format : Option String
deriving DecidableEq

/-- The summary dict built by process_multiple_files. -/
structure BatchSummary : Type where
  total : Nat
  successful : Nat
  failed : Nat
  formatsProcessed : List (String × Nat)
deriving DecidableEq

/-- The dict returned by process_multiple_files. -/
structure BatchResult : Type where
  success : Bool
  documents : List FileResult
  summary : BatchSummary
deriving DecidableEq

/-- extractor.py:169, summary formats_processed get(fmt, 0) + 1: bump the
count of a key in an insertion-ordered counter dict, appending a fresh
key with count 1. -/
def incrFormat : List (String × Nat) → String → List (String × Nat)
  | [], k => [(k, 1)]
  | (k0, v) :: rest, k =>
      if k0 = k then (k0, v + 1) :: rest else (k0, v) :: incrFormat rest k

/-- extractor.py:155-169, the loop body applied along the file list:
appends each per-file result in input order and updates the summary
counters. -/
def runBatch {α : Type} (extract : α → FileResult) :
    List α → BatchSummary → List FileResult × BatchSummary
  | [], s => ([], s)
  | f :: rest, s =>
      let r := extract f
      let s1 : BatchSummary :=
        BatchSummary.mk s.total
          (if r.error = none then s.successful + 1 else s.successful)
          (if r.error = none then s.failed else s.failed + 1)
          (incrFormat s.formatsProcessed ((r.format).getD "unknown"))
      let out := runBatch extract rest s1
      (r :: out.1, out.2)

/-- extractor.py:145-177, process_multiple_files: the summary starts with
total equal to the number of files and zero counters, the loop runs, and
the result carries success defined as failed equal to zero. -/
def process_multiple_files {α : Type} (extract : α → FileResult)
    (files : List α) : BatchResult :=
  let out := runBatch extract files (BatchSummary.mk files.length 0 0 [])
  BatchResult.mk (out.2.failed == 0) out.1 out.2

/-- Sum of the per-format counts of the counter dict. -/
def formatsTotal : List (String × Nat) → Nat
  | [] => 0
  | (_, v) :: rest => v + formatsTotal rest

/-! ### Observables of the remote-to-client output stream -/

/-- Byte count and flags of each audio event, in production order. -/
def audioMetaOf : List GeminiEvent → List (Nat × Bool × Bool)
  | [] => []
  | GeminiEvent.audio d i t :: rest => (d.length, i, t) :: audioMetaOf rest
  | GeminiEvent.text _ _ _ :: rest => audioMetaOf rest

/-- Payload of each audio event, in production order. -/
def audioPayloads : List GeminiEvent → List (List Nat)
  | [] => []
  | GeminiEvent.audio d _ _ :: rest => d :: audioPayloads rest
  | GeminiEvent.text _ _ _ :: rest => audioPayloads rest

/-- Bytes field and flags of each audio_metadata envelope of an output
stream, in send order. -/
def metaOut : List ClientOut → List (Nat × Bool × Bool)
  | [] => []
  | ClientOut.control (Envelope.audioMetadata b i t) :: rest => (b, i, t) :: metaOut rest
  | ClientOut.binaryFrame _ :: rest => metaOut rest
  | ClientOut.control Envelope.connectionEstablished :: rest => metaOut rest
  | ClientOut.control (Envelope.textResponse _ _ _) :: rest => metaOut rest
  | ClientOut.control (Envelope.errorMsg _) :: rest => metaOut rest
  | ClientOut.control Envelope.pong :: rest => metaOut rest

/-- Binary frames of an output stream, in send order. -/
def binOut : List ClientOut → List (List Nat)
  | [] => []
  | ClientOut.binaryFrame d :: rest => d :: binOut rest
  | ClientOut.control _ :: rest => binOut rest

/-- The pairing wire contract over a client-bound output stream: every
binary frame is immediately followed by exactly one audio_metadata
envelope whose bytes field equals the length of that frame, an
audio_metadata envelope occurs only in that position, and the only other
stream elements are stand-alone text_response envelopes. -/
inductive WellPaired : List ClientOut → Prop
  | nil : WellPaired []
  | audio (d : List Nat) (i t : Bool) (rest : List ClientOut) :
      WellPaired rest →
      WellPaired (ClientOut.binaryFrame d ::
        ClientOut.control (Envelope.audioMetadata d.length i t) :: rest)
  | textR (s : String) (i t : Bool) (rest : List ClientOut) :
      WellPaired rest →
      WellPaired (ClientOut.control (Envelope.textResponse s i t) :: rest)

/-! ## Claims -/

/-- C1: in the remote-to-client loop, every audio event becomes a binary
frame immediately followed by exactly one audio_metadata envelope whose
bytes field equals the forwarded payload length and whose flags are the
event flags, with no other output of this loop between the two, and both
the binary frames and the metadata envelopes appear in the order the
remote session produced the events. -/
theorem c1_audio_metadata_pairing (events : List GeminiEvent) :
    WellPaired (forwardGeminiToClient events) ∧
    metaOut (forwardGeminiToClient events) = audioMetaOf events ∧
    binOut (forwardGeminiToClient events) = audioPayloads events := by
  induction events with
  | nil => exact ⟨WellPaired.nil, rfl, rfl⟩
  | cons e rest ih =>
      cases e with
      | audio d i t =>
          refine ⟨WellPaired.audio d i t _ ih.1, ?_, ?_⟩ <;>
            simp [forwardGeminiToClient, metaOut, binOut, audioMetaOf,
              audioPayloads, ih.2.1, ih.2.2]
      | text s i t =>
          refine ⟨WellPaired.textR s i t _ ih.1, ?_, ?_⟩ <;>
            simp [forwardGeminiToClient, metaOut, binOut, audioMetaOf,
              audioPayloads, ih.2.1, ih.2.2]

/-- C1 witness: the pairing contract evaluated on one concrete audio
event of two bytes. -/
theorem c1_witness :
    WellPaired (forwardGeminiToClient [GeminiEvent.audio [1, 2] false true]) ∧
    metaOut (forwardGeminiToClient [GeminiEvent.audio [1, 2] false true]) =
      [(2, false, true)] ∧
    binOut (forwardGeminiToClient [GeminiEvent.audio [1, 2] false true]) =
      [[1, 2]] :=
  c1_audio_metadata_pairing [GeminiEvent.audio [1, 2] false true]

/-- C2 counterexample: with loop durations 1 and 5 the finally block
starts at instant 5 (when the gather of both loops resumes), not at
instant 1 when the first loop terminated, and no cancellation of the
surviving loop is ever issued. -/
theorem c2_counterexample :
    teardownStartTime 1 5 = 5 ∧ teardownStartTime 1 5 ≠ min 1 5 ∧
    cancellationsIssued 1 5 = [] := by
  decide

/-- C2 amended: when either forwarding loop terminates, the sibling is
not cancelled and keeps running; at every instant at which one loop has
terminated but the other is still running, the gather has not resumed
and teardown has not begun. Teardown begins only once both loops have
terminated on their own. -/
theorem c2_amended_no_cancellation (d1 d2 t : Nat)
    (_h1 : ¬ loopRunningAt d1 t) (h2 : loopRunningAt d2 t) :
    teardownStartTime d1 d2 = max d1 d2 ∧
    ¬ gatherBothDone d1 d2 t ∧
    cancellationsIssued d1 d2 = [] := by
  refine ⟨rfl, ?_, rfl⟩
  intro hg
  exact absurd hg.2 (Nat.not_le.mpr h2)

/-- C2 amended witness: loop durations 1 and 5 at instant 3. -/
theorem c2_amended_witness :
    teardownStartTime 1 5 = max 1 5 ∧
    ¬ gatherBothDone 1 5 3 ∧
    cancellationsIssued 1 5 = [] :=
  c2_amended_no_cancellation 1 5 3 (by decide) (by decide)

/-- C4 counterexample: registering id a when an entry for a is already
present does not fail and does not leave the existing entry in place: the
dict assignment replaces it, while the specified contract would have
failed with DuplicateConnection. -/
theorem c4_counterexample :
    lookup "a" (register "a" 2 (register "a" 1 emptyRegistry)) = some 2 ∧
    lookup "a" (register "a" 2 (register "a" 1 emptyRegistry)) ≠ some 1 ∧
    registerSpecified "a" 2 (register "a" 1 emptyRegistry) =
      Except.error RegErr.duplicateConnection := by
  refine ⟨by decide, by decide, ?_⟩
  rfl

/-- C4 amended: registering under an id that is already present never
fails; it silently replaces the existing entry and leaves every other
entry unchanged. -/
theorem c4_amended_register_replaces (id : String) (ws : Nat)
    (reg : Registry) (k : String) (hk : k ≠ id) :
    lookup id (register id ws reg) = some ws ∧
    lookup k (register id ws reg) = lookup k reg := by
  constructor
  · simp [lookup, register]
  · simp [lookup, register, hk]

/-- C4 amended witness: re-registering id a over an existing entry. -/
theorem c4_amended_witness :
    lookup "a" (register "a" 2 (register "a" 1 emptyRegistry)) = some 2 ∧
    lookup "b" (register "a" 2 (register "a" 1 emptyRegistry)) =
      lookup "b" (register "a" 1 emptyRegistry) :=
  c4_amended_register_replaces "a" 2 (register "a" 1 emptyRegistry) "b" (by decide)

/-- C6 counterexample: a text frame whose payload is valid JSON but not a
JSON object (AttributeError inside the control handler) terminates the
client-to-remote loop, so the following valid binary frame is never
forwarded, contrary to the claim that such a frame is silently discarded
with subsequent frames still processed. -/
theorem c6_counterexample :
    forwardClientToGemini true
        [ClientFrame.text TextPayload.jsonNonObject, ClientFrame.binary [1]] = [] ∧
    forwardClientToGemini true
        [ClientFrame.text TextPayload.jsonNonObject, ClientFrame.binary [1]] ≠
      forwardClientToGemini true [ClientFrame.binary [1]] := by
  decide

/-- C6 amended: a text frame whose payload is not syntactically valid
JSON is silently discarded and the loop continues with the remaining
frames unchanged, as is a parsed JSON object whose type is not ping; but
a payload that is valid JSON and not a JSON object ends the
client-to-remote loop (the raised error is logged, not surfaced to the
client). -/
theorem c6_amended_discard (sendAudioOk : Bool) (rest : List ClientFrame) :
    forwardClientToGemini sendAudioOk
        (ClientFrame.text TextPayload.notJson :: rest) =
      forwardClientToGemini sendAudioOk rest ∧
    (∀ typ : Option String, typ ≠ some "ping" →
      forwardClientToGemini sendAudioOk
          (ClientFrame.text (TextPayload.jsonObject typ) :: rest) =
        forwardClientToGemini sendAudioOk rest) ∧
    forwardClientToGemini sendAudioOk
        (ClientFrame.text TextPayload.jsonNonObject :: rest) = [] := by
  refine ⟨rfl, ?_, rfl⟩
  intro typ h
  simp [forwardClientToGemini, handleControlMessage, h]

/-- C6 amended witness: a non-JSON frame and an object of unrecognized
type are both discarded ahead of a binary frame. -/
theorem c6_amended_witness :
    forwardClientToGemini true
        [ClientFrame.text TextPayload.notJson, ClientFrame.binary [2]] =
      forwardClientToGemini true [ClientFrame.binary [2]] ∧
    forwardClientToGemini true
        [ClientFrame.text (TextPayload.jsonObject (some "other")),
          ClientFrame.binary [2]] =
      forwardClientToGemini true [ClientFrame.binary [2]] :=
  ⟨(c6_amended_discard true [ClientFrame.binary [2]]).1,
   (c6_amended_discard true [ClientFrame.binary [2]]).2.1 (some "other") (by decide)⟩

/-- C7: a ping control message is answered by exactly one pong envelope,
produced in-line by the control router, and this holds whatever the
remote-session send state is: the pong output and the processing of the
remaining frames do not depend on the remote session. -/
theorem c7_ping_pong (sendAudioOk : Bool) (rest : List ClientFrame) :
    handleControlMessage (some "ping") = [Envelope.pong] ∧
    forwardClientToGemini sendAudioOk
        (ClientFrame.text (TextPayload.jsonObject (some "ping")) :: rest) =
      ClientLoopAction.sendToClient Envelope.pong ::
        forwardClientToGemini sendAudioOk rest := by
  constructor
  · decide
  · simp [forwardClientToGemini, handleControlMessage]

/-- C7 witness: a ping frame answered by one pong with the remote session
unable to accept audio. -/
theorem c7_witness :
    handleControlMessage (some "ping") = [Envelope.pong] ∧
    forwardClientToGemini false
        [ClientFrame.text (TextPayload.jsonObject (some "ping"))] =
      [ClientLoopAction.sendToClient Envelope.pong] :=
  c7_ping_pong false []

/-- C8: unregistering the same id twice leaves the registry exactly as
one call leaves it, the call on an absent id is a no-op, and unregister
is a total operation with no failure outcome. -/
theorem c8_unregister_idempotent (id : String) (reg : Registry) :
    unregister id (unregister id reg) = unregister id reg ∧
    (lookup id reg = none → unregister id reg = reg) := by
  constructor
  · funext k
    by_cases hk : k = id <;> simp [unregister, hk]
  · intro h
    funext k
    by_cases hk : k = id
    · subst hk
      simp only [unregister, if_pos rfl]
      exact h.symm
    · simp [unregister, hk]

/-- C8 witness: double unregistration on the empty registry. -/
theorem c8_witness :
    unregister "a" (unregister "a" emptyRegistry) = unregister "a" emptyRegistry ∧
    unregister "a" emptyRegistry = emptyRegistry :=
  ⟨(c8_unregister_idempotent "a" emptyRegistry).1,
   (c8_unregister_idempotent "a" emptyRegistry).2 rfl⟩

/-- C3: on every run of handle_connection (remote connect succeeding or
failing, remote teardown raising or not) the connection ends CLOSED with
its registry entry removed and disconnect invoked exactly once, every
CLOSED snapshot of the run is unregistered with exactly one disconnect
call, and disconnect is never invoked more than once. -/
theorem c3_closed_invariants (connectOk aexitRaises : Bool) :
    (handleConnectionTrace connectOk aexitRaises).getLast? =
      some (ConnSnapshot.mk Phase.closed false 1) ∧
    (∀ s ∈ handleConnectionTrace connectOk aexitRaises,
      s.phase = Phase.closed → s.registered = false ∧ s.disconnectCalls = 1) ∧
    (∀ s ∈ handleConnectionTrace connectOk aexitRaises, s.disconnectCalls ≤ 1) := by
  cases connectOk <;> cases aexitRaises <;> decide

/-- C3 witness: the run with a successful connect and a raising teardown
still ends CLOSED, unregistered, with one disconnect call. -/
theorem c3_witness :
    (handleConnectionTrace true true).getLast? =
      some (ConnSnapshot.mk Phase.closed false 1) ∧
    (ConnSnapshot.mk Phase.closed false 1).registered = false ∧
    (ConnSnapshot.mk Phase.closed false 1).disconnectCalls = 1 :=
  ⟨(c3_closed_invariants true true).1,
   (c3_closed_invariants true true).2.1
     (ConnSnapshot.mk Phase.closed false 1) (by decide) rfl⟩

/-- C5: disconnect never lets a teardown failure escape, for any manager
state and any outcome of the session exit call, and on every run of
handle_connection the connection still reaches CLOSED with its registry
entry removed whether or not teardown raised. -/
theorem c5_teardown_never_escalates (st : MgrState) (aexitRaises : Bool) :
    (disconnect st aexitRaises).2 = none ∧
    (∀ connectOk : Bool,
      (handleConnectionTrace connectOk aexitRaises).getLast? =
        some (ConnSnapshot.mk Phase.closed false 1)) := by
  obtain ⟨so, ic⟩ := st
  cases so <;> cases ic <;> cases aexitRaises <;> decide

/-- C5 witness: a raising teardown on an open session escapes nothing and
the connection still closes. -/
theorem c5_witness :
    (disconnect (MgrState.mk true true) true).2 = none ∧
    (handleConnectionTrace true true).getLast? =
      some (ConnSnapshot.mk Phase.closed false 1) :=
  ⟨(c5_teardown_never_escalates (MgrState.mk true true) true).1,
   (c5_teardown_never_escalates (MgrState.mk true true) true).2 true⟩

/-! ### Lemmas on the batch extraction loop -/

/-- The per-file outcomes appended by the loop are exactly the extraction
results of the input files, in input order, for any starting summary. -/
theorem runBatch_documents {α : Type} (extract : α → FileResult)
    (files : List α) (s : BatchSummary) :
    (runBatch extract files s).1 = files.map extract := by
  induction files generalizing s with
  | nil => rfl
  | cons f rest ih => simp [runBatch, ih]

/-- The loop never touches the total field. -/
theorem runBatch_total {α : Type} (extract : α → FileResult)
    (files : List α) (s : BatchSummary) :
    (runBatch extract files s).2.total = s.total := by
  induction files generalizing s with
  | nil => rfl
  | cons f rest ih => simp [runBatch, ih]

/-- Each file increments exactly one of the successful and failed
counters. -/
theorem runBatch_counts {α : Type} (extract : α → FileResult)
    (files : List α) (s : BatchSummary) :
    (runBatch extract files s).2.successful + (runBatch extract files s).2.failed =
      s.successful + s.failed + files.length := by
  induction files generalizing s with
  | nil => rfl
  | cons f rest ih =>
      by_cases h : (extract f).error = none <;>
        simp [runBatch, h, ih] <;> omega

/-- Bumping a key adds one to the sum of the counter dict. -/
theorem formatsTotal_incrFormat (m : List (String × Nat)) (k : String) :
    formatsTotal (incrFormat m k) = formatsTotal m + 1 := by
  induction m with
  | nil => rfl
  | cons p rest ih =>
      obtain ⟨k0, v⟩ := p
      by_cases h : k0 = k <;> simp [incrFormat, h, formatsTotal, ih] <;> omega

/-- Each file adds one to the sum of the per-format counts. -/
theorem runBatch_formats {α : Type} (extract : α → FileResult)
    (files : List α) (s : BatchSummary) :
    formatsTotal (runBatch extract files s).2.formatsProcessed =
      formatsTotal s.formatsProcessed + files.length := by
  induction files generalizing s with
  | nil => rfl
  | cons f rest ih => simp [runBatch, ih, formatsTotal_incrFormat]; omega

/-- C9: batch extraction returns one per-file outcome per input file in
input order; the summary total equals the number of input files;
successful plus failed equals total; the per-format counts sum to total;
and the overall success flag is true exactly when failed is zero. -/
theorem c9_batch_aggregates {α : Type} (extract : α → FileResult)
    (files : List α) :
    (process_multiple_files extract files).documents = files.map extract ∧
    (process_multiple_files extract files).summary.total = files.length ∧
    (process_multiple_files extract files).summary.successful +
        (process_multiple_files extract files).summary.failed =
      (process_multiple_files extract files).summary.total ∧
    formatsTotal (process_multiple_files extract files).summary.formatsProcessed =
      (process_multiple_files extract files).summary.total ∧
    ((process_multiple_files extract files).success = true ↔
      (process_multiple_files extract files).summary.failed = 0) := by
  have hd := runBatch_documents extract files (BatchSummary.mk files.length 0 0 [])
  have ht := runBatch_total extract files (BatchSummary.mk files.length 0 0 [])
  have hc := runBatch_counts extract files (BatchSummary.mk files.length 0 0 [])
  have hf := runBatch_formats extract files (BatchSummary.mk files.length 0 0 [])
  refine ⟨hd, ht, ?_, ?_, ?_⟩
  · simp only [process_multiple_files] at *
    omega
  · simp only [process_multiple_files, formatsTotal] at *
    omega
  · simp [process_multiple_files]

/-- C9 witness: a two-file batch with one success and one failure. -/
theorem c9_witness :
    (process_multiple_files (fun r : FileResult => r)
        [FileResult.mk none (some "pdf"), FileResult.mk (some "bad") none]).documents =
      [FileResult.mk none (some "pdf"), FileResult.mk (some "bad") none] ∧
    (process_multiple_files (fun r : FileResult => r)
        [FileResult.mk none (some "pdf"), FileResult.mk (some "bad") none]).summary.total = 2 :=
  ⟨(c9_batch_aggregates (fun r : FileResult => r)
      [FileResult.mk none (some "pdf"), FileResult.mk (some "bad") none]).1,
   (c9_batch_aggregates (fun r : FileResult => r)
      [FileResult.mk none (some "pdf"), FileResult.mk (some "bad") none]).2.1⟩

/-- C10: the structured-send helper absorbs every transport failure and
returns normally on both outcomes; consequently the remote-to-client loop
processes all remote events whenever every binary send completes, no
matter how many raw structured sends fail, while a failing binary send
ends the loop at once. -/
theorem c10_structured_send_absorbed :
    (∀ ok : Bool, sendJsonHelper ok = Except.ok ()) ∧
    (∀ (tr : Transport) (events : List GeminiEvent) (bk jk : Nat),
      (∀ k, tr.bytesOk k = true) →
      (geminiLoopRun tr bk jk events).2 = events.length) ∧
    (∀ (tr : Transport) (bk jk : Nat) (d : List Nat) (i t : Bool)
      (rest : List GeminiEvent),
      tr.bytesOk bk = false →
      geminiLoopRun tr bk jk (GeminiEvent.audio d i t :: rest) = ([], 0)) := by
  refine ⟨?_, ?_, ?_⟩
  · intro ok
    cases ok <;> rfl
  · intro tr events
    induction events with
    | nil => intro bk jk h; rfl
    | cons e rest ih =>
        intro bk jk h
        cases e with
        | audio d i t =>
            cases hj : tr.jsonOk jk <;>
              simp [geminiLoopRun, h bk, hj, sendJsonHelper, rawSendJson,
                ih (bk + 1) (jk + 1) h]
        | text s i t =>
            cases hj : tr.jsonOk jk <;>
              simp [geminiLoopRun, hj, sendJsonHelper, rawSendJson,
                ih bk (jk + 1) h]
  · intro tr bk jk d i t rest h
    simp [geminiLoopRun, h]

/-- Transport whose binary sends all complete while every raw structured
send fails. -/
def jsonFailingTransport : Transport :=
  Transport.mk (fun _ => true) (fun _ => false)

/-- Transport whose binary sends all fail. -/
def bytesFailingTransport : Transport :=
  Transport.mk (fun _ => false) (fun _ => true)

/-- C10 witness: a failing structured send is absorbed and both remote
events are still processed; a failing binary send ends the loop with no
event processed. -/
theorem c10_witness :
    sendJsonHelper false = Except.ok () ∧
    (geminiLoopRun jsonFailingTransport 0 0
        [GeminiEvent.audio [1, 2] false true, GeminiEvent.text "hi" false false]).2 = 2 ∧
    geminiLoopRun bytesFailingTransport 0 0
        [GeminiEvent.audio [1] false false] = ([], 0) :=
  ⟨c10_structured_send_absorbed.1 false,
   c10_structured_send_absorbed.2.1 jsonFailingTransport
     [GeminiEvent.audio [1, 2] false true, GeminiEvent.text "hi" false false]
     0 0 (fun _ => rfl),
   c10_structured_send_absorbed.2.2 bytesFailingTransport 0 0 [1] false false [] rfl⟩

end PyService
